import Mathlib

/-!
Verification development for the Blue Marble Online repository.

The file shallowly embeds the two state-bearing modules of the repository:

* `GameState` (client game logic, `GameState.js`): players, board tiles,
  movement, rent, purchase and building.  Three.js meshes, animation and
  logging are presentation-only and are not part of the embedding; JS object
  mutation is modelled by explicit state passing, `null` by `Option`, JS
  numbers holding money by `Int`, and array indices by `List` positions.
* `GameServer` (`websocket-server.js`): rooms, clients, message dispatch.
  JS `Map`s are modelled as insertion-ordered association lists with the
  `Map.get/set/delete` operations, outbound traffic as a list of events, and
  `Math.random`-derived values (room ids, player ids, dice) as oracle inputs
  threaded into the handlers.
-/

/-- Static tile configuration, one entry of `TileRenderer.initializeTileData`.
The visual `color` attribute is omitted (render-only).  Non-city entries carry
no `rent` field in the source, hence `Option`; `calculateRent` reads it as
`tileInfo.rent || 0`. -/
structure TileInfo where
  id : Nat
  name : String
  type : String
  price : Nat
  rent : Option Nat := none
  deriving Repr, DecidableEq

/-- The dynamic state of the building mesh of a tile: `building.userData.level`
in `TileRenderer.createTile`/`updateTile`.  Visibility and scale are
render-only and omitted. -/
structure Building where
  level : Nat
  deriving Repr, DecidableEq

/-- The authoritative data of one board tile: `group.userData` as set up by
`TileRenderer.createTile` (`owner: null` becomes `none`). -/
structure Tile where
  tileId : Nat
  tileInfo : TileInfo
  building : Building
  owner : Option Nat
  deriving Repr, DecidableEq

/-- One player record as created by `GameState.initializePlayers`. -/
structure Player where
  id : Nat
  name : String
  color : Nat
  position : Nat
  money : Int
  properties : List Nat
  inJail : Bool
  jailTurns : Int
  doublesCount : Nat
  deriving Repr, DecidableEq

/-- A dice result as built by the server's `handleRollDice`:
`{ dice: [dice1, dice2], total, isDouble }`. -/
structure DiceResult where
  dice1 : Nat
  dice2 : Nat
  total : Nat
  isDouble : Bool
  deriving Repr, DecidableEq

/-- The mutable state of `GameState` together with the tile state owned by its
`tileRenderer` (`tiles` mirrors `tileRenderer.tiles`' `userData`, `tileData`
mirrors `tileRenderer.tileData`).  Meshes and the scene are render-only. -/
structure GameState where
  players : List Player
  tiles : List Tile
  tileData : List TileInfo
  currentPlayerIndex : Nat
  gamePhase : String
  turnPhase : String
  deriving Repr, DecidableEq

/-- `TileRenderer.initializeTileData` (colors omitted). -/
def initializeTileData : List TileInfo :=
  [ { id := 0, name := "Start", type := "special", price := 0 },
    { id := 1, name := "Taipei", type := "city", price := 50000, rent := some 2000 },
    { id := 2, name := "Chance", type := "chance", price := 0 },
    { id := 3, name := "Beijing", type := "city", price := 80000, rent := some 4000 },
    { id := 4, name := "Manila", type := "city", price := 80000, rent := some 4000 },
    { id := 5, name := "Jeju Island", type := "special", price := 200000 },
    { id := 6, name := "Singapore", type := "city", price := 100000, rent := some 6000 },
    { id := 7, name := "Chance", type := "chance", price := 0 },
    { id := 8, name := "Cairo", type := "city", price := 100000, rent := some 6000 },
    { id := 9, name := "Istanbul", type := "city", price := 120000, rent := some 8000 },
    { id := 10, name := "Deserted Island", type := "special", price := 0 },
    { id := 11, name := "Athens", type := "city", price := 140000, rent := some 10000 },
    { id := 12, name := "Social Welfare", type := "special", price := 0 },
    { id := 13, name := "Copenhagen", type := "city", price := 160000, rent := some 13000 },
    { id := 14, name := "Stockholm", type := "city", price := 160000, rent := some 13000 },
    { id := 15, name := "Concorde", type := "special", price := 200000 },
    { id := 16, name := "Bern", type := "city", price := 180000, rent := some 15000 },
    { id := 17, name := "Chance", type := "chance", price := 0 },
    { id := 18, name := "Berlin", type := "city", price := 180000, rent := some 15000 },
    { id := 19, name := "Ottawa", type := "city", price := 200000, rent := some 18000 },
    { id := 20, name := "Free Pass", type := "special", price := 0 },
    { id := 21, name := "Buenos Aires", type := "city", price := 220000, rent := some 20000 },
    { id := 22, name := "Chance", type := "chance", price := 0 },
    { id := 23, name := "Sao Paulo", type := "city", price := 240000, rent := some 22000 },
    { id := 24, name := "Sydney", type := "city", price := 240000, rent := some 22000 },
    { id := 25, name := "Busan", type := "special", price := 200000 },
    { id := 26, name := "Hawaii", type := "city", price := 260000, rent := some 25000 },
    { id := 27, name := "Lisboa", type := "city", price := 260000, rent := some 25000 },
    { id := 28, name := "Social Welfare", type := "special", price := 0 },
    { id := 29, name := "Madrid", type := "city", price := 280000, rent := some 28000 },
    { id := 30, name := "Space Travel", type := "special", price := 0 },
    { id := 31, name := "Tokyo", type := "city", price := 300000, rent := some 35000 },
    { id := 32, name := "Chance", type := "chance", price := 0 },
    { id := 33, name := "Paris", type := "city", price := 320000, rent := some 38000 },
    { id := 34, name := "Rome", type := "city", price := 320000, rent := some 38000 },
    { id := 35, name := "Columbia", type := "special", price := 200000 },
    { id := 36, name := "London", type := "city", price := 350000, rent := some 50000 },
    { id := 37, name := "Chance", type := "chance", price := 0 },
    { id := 38, name := "New York", type := "city", price := 350000, rent := some 50000 },
    { id := 39, name := "Seoul", type := "city", price := 1000000, rent := some 200000 } ]

/-- `TileRenderer.createBoard`: every tile starts with no owner and building
level 0 (`createTile`). -/
def createBoard : List Tile :=
  initializeTileData.map fun info =>
    { tileId := info.id, tileInfo := info, building := { level := 0 }, owner := none }

/-- `TileRenderer.getTileInfo` (array indexing; out of range gives
`undefined`, i.e. `none`). -/
def getTileInfo (gs : GameState) (tileId : Nat) : Option TileInfo :=
  gs.tileData[tileId]?

/-- The optional-field argument of `TileRenderer.updateTile`: a JS object that
may or may not carry `owner` and `buildingLevel` properties. -/
structure TileUpdate where
  owner : Option (Option Nat) := none
  buildingLevel : Option Nat := none
  deriving Repr, DecidableEq

/-- `TileRenderer.updateTile` restricted to authoritative state (the
building's visibility/scale updates are render-only). -/
def updateTile (tiles : List Tile) (tileId : Nat) (data : TileUpdate) : List Tile :=
  match tiles[tileId]? with
  | none => tiles
  | some tile =>
    let tile := match data.owner with
      | some o => { tile with owner := o }
      | none => tile
    let tile := match data.buildingLevel with
      | some lvl => { tile with building := { tile.building with level := lvl } }
      | none => tile
    tiles.set tileId tile

/-- `GameState.playerColors`. -/
def playerColors : List Nat := [0xff0000, 0x00ff00, 0x0000ff, 0xffff00]

/-- `GameState.initializePlayers`: the list of fresh player records (mesh
creation and the `gamePhase`/`turnPhase` writes are handled by the caller's
state; `numPlayers` is clamped to `maxPlayers = 4`). -/
def initializePlayers (numPlayers : Nat) : List Player :=
  let n := if numPlayers > 4 then 4 else numPlayers
  (List.range n).map fun i =>
    { id := i, name := "Player " ++ toString (i + 1), color := playerColors.getD i 0,
      position := 0, money := 2000000, properties := [], inJail := false,
      jailTurns := 0, doublesCount := 0 }

/-- `GameState.getCurrentPlayer`. -/
def getCurrentPlayer (gs : GameState) : Option Player :=
  gs.players[gs.currentPlayerIndex]?

/-- JS `Array.prototype.find` mutated through the returned reference: the
first element with the given id is replaced by `f` of itself. -/
def updateFirst (l : List Player) (pid : Nat) (f : Player → Player) : List Player :=
  match l with
  | [] => []
  | p :: rest => if p.id = pid then f p :: rest else p :: updateFirst rest pid f

/-- `GameState.movePlayer` (lines 74-89): the synchronous state change; the
`animatePlayerMovement` call only drives visuals and the deferred
landing callback. -/
def movePlayer (gs : GameState) (playerId : Nat) (diceRoll : Nat) : GameState :=
  match gs.players.find? (fun p => p.id == playerId) with
  | none => gs
  | some player =>
    let startPosition := player.position
    let endPosition := (startPosition + diceRoll) % 40
    let player :=
      if endPosition < startPosition then
        { player with money := player.money + 200000 }
      else player
    let player := { player with position := endPosition }
    { gs with players := updateFirst gs.players playerId (fun _ => player) }

/-- `GameState.calculateRent`: `Math.floor(baseRent * (1 + buildingLevel * 0.5))`
with `baseRent = tileInfo.rent || 0`.  For natural `baseRent` and level this
floor equals `baseRent * (2 + level) / 2` in truncated natural division. -/
def calculateRent (tileInfo : TileInfo) (buildingLevel : Nat) : Nat :=
  let baseRent := tileInfo.rent.getD 0
  baseRent * (2 + buildingLevel) / 2

/-- `GameState.handleCityTile` (lines 173-190), for the player with id
`playerId` landing on the tile described by `tileInfo`.  The source reads
`const owner = tile.userData.owner; if (!owner) ...`: the falsy test is true
both for `null` and for the number `0`, so a tile owned by player 0 takes the
purchase-prompt branch.  The rent credit indexes `this.players[owner]` by
array position. -/
def handleCityTile (gs : GameState) (playerId : Nat) (tileInfo : TileInfo) : GameState :=
  match gs.tiles[tileInfo.id]?, gs.players.find? (fun p => p.id == playerId) with
  | some tile, some _ =>
    match tile.owner with
    | none => gs
    | some o =>
      if o = 0 then gs
      else if o ≠ playerId then
        let rent := calculateRent tileInfo tile.building.level
        let players := updateFirst gs.players playerId
          (fun q => { q with money := q.money - (rent : Int) })
        let players :=
          match players[o]? with
          | some q => players.set o { q with money := q.money + (rent : Int) }
          | none => players
        { gs with players := players }
      else gs
  | _, _ => gs

/-- `GameState.buyProperty` (lines 218-238).  Returns the source's boolean
together with the state.  The guard `!player || !tileInfo ||
tile.userData.owner !== null` short-circuits, so a missing player or tile
info returns `false` before the tile is dereferenced. -/
def buyProperty (gs : GameState) (playerId : Nat) (tileId : Nat) : Bool × GameState :=
  match gs.players.find? (fun p => p.id == playerId), getTileInfo gs tileId with
  | some player, some tileInfo =>
    match gs.tiles[tileId]? with
    | none => (false, gs)
    | some tile =>
      if tile.owner ≠ none then (false, gs)
      else if (tileInfo.price : Int) ≤ player.money then
        let players := updateFirst gs.players playerId fun p =>
          { p with money := p.money - (tileInfo.price : Int),
                   properties := p.properties ++ [tileId] }
        let tiles := updateTile gs.tiles tileId { owner := some (some playerId) }
        (true, { gs with players := players, tiles := tiles })
      else (false, gs)
  | _, _ => (false, gs)

/-- `GameState.buildOnProperty` (lines 240-266). -/
def buildOnProperty (gs : GameState) (playerId : Nat) (tileId : Nat) : Bool × GameState :=
  match gs.players.find? (fun p => p.id == playerId), gs.tiles[tileId]? with
  | some player, some tile =>
    if tile.owner ≠ some playerId then (false, gs)
    else
      let currentLevel := tile.building.level
      if 5 ≤ currentLevel then (false, gs)
      else
        let buildCost := 100000 * (currentLevel + 1)
        if (buildCost : Int) ≤ player.money then
          let players := updateFirst gs.players playerId fun p =>
            { p with money := p.money - (buildCost : Int) }
          let tiles := updateTile gs.tiles tileId { buildingLevel := some (currentLevel + 1) }
          (true, { gs with players := players, tiles := tiles })
        else (false, gs)
  | _, _ => (false, gs)

/-- `GameState.nextTurn`. -/
def nextTurn (gs : GameState) : GameState :=
  { gs with currentPlayerIndex := (gs.currentPlayerIndex + 1) % gs.players.length,
            turnPhase := "ROLL" }

/-- The tail of `GameState.handleDiceRoll` (lines 323-325): commit the acting
player (mutated in place in the source), enter the `MOVE` phase and run
`movePlayer`. -/
def diceRollMovePhase (gs : GameState) (player : Player) (total : Nat) : GameState :=
  let gs := { gs with players := gs.players.set gs.currentPlayerIndex player,
                      turnPhase := "MOVE" }
  movePlayer gs player.id total

/-- Jail handling inside `GameState.handleDiceRoll` (lines 304-321), entered
with the acting player's doubles bookkeeping already applied. -/
def diceRollJailPhase (gs : GameState) (player : Player) (diceResult : DiceResult) : GameState :=
  if player.inJail then
    if diceResult.isDouble then
      diceRollMovePhase gs { player with inJail := false, jailTurns := 0 } diceResult.total
    else
      let player := { player with jailTurns := player.jailTurns - 1 }
      if player.jailTurns ≤ 0 then
        diceRollMovePhase gs { player with inJail := false } diceResult.total
      else
        { gs with players := gs.players.set gs.currentPlayerIndex player,
                  turnPhase := "END_TURN" }
  else
    diceRollMovePhase gs player diceResult.total

/-- `GameState.handleDiceRoll` (lines 278-326).  The source mutates the object
returned by `getCurrentPlayer`, i.e. the entry at `currentPlayerIndex`. -/
def handleDiceRoll (gs : GameState) (diceResult : DiceResult) : GameState :=
  if gs.turnPhase ≠ "ROLL" then gs
  else
    match getCurrentPlayer gs with
    | none => gs
    | some player =>
      if diceResult.isDouble then
        let player := { player with doublesCount := player.doublesCount + 1 }
        if 3 ≤ player.doublesCount then
          let player := { player with inJail := true, jailTurns := 3,
                                      position := 10, doublesCount := 0 }
          { gs with players := gs.players.set gs.currentPlayerIndex player,
                    turnPhase := "END_TURN" }
        else
          diceRollJailPhase gs player diceResult
      else
        diceRollJailPhase gs { player with doublesCount := 0 } diceResult

/-! ## The WebSocket server (`websocket-server.js`) -/

/-- One roster entry of a room, as built by `handleCreateRoom`/`handleJoinRoom`
(the `ws` transport handle is modelled as a number). -/
structure ServerPlayer where
  id : String
  name : String
  ws : Nat
  isReady : Bool
  deriving Repr, DecidableEq

/-- One entry of the server game state's `players` array
(`initializeGameState`). -/
structure GSPlayer where
  id : String
  position : Nat
  money : Int
  properties : List Nat
  inJail : Bool
  deriving Repr, DecidableEq

/-- The per-room game state object returned by
`GameServer.initializeGameState`. -/
structure ServerGameState where
  currentPlayerId : String
  players : List GSPlayer
  lastDiceRoll : Option DiceResult
  deriving Repr, DecidableEq

/-- A room record (`handleCreateRoom`); `players` is a JS `Map` in insertion
order, modelled as an association list. -/
structure Room where
  id : String
  hostId : String
  maxPlayers : Nat
  players : List (String × ServerPlayer)
  gameState : Option ServerGameState
  isStarted : Bool
  deriving Repr, DecidableEq

/-- The per-connection record stored in `this.clients` (the `ws` key itself is
the map key, so it is not repeated here). -/
structure ClientInfo where
  playerId : Option String
  roomId : Option String
  playerName : Option String
  deriving Repr, DecidableEq

/-- The server's mutable state: `this.rooms` and `this.clients`. -/
structure ServerState where
  rooms : List (String × Room)
  clients : List (Nat × ClientInfo)
  deriving Repr, DecidableEq

/-- An outbound effect of a handler: a direct message (`send`), an error
report (`sendError`), a room broadcast (`broadcastToRoom`, with its optional
excluded connection), or a transport close.  The server code never closes a
connection itself, so `closeConn` never occurs in a handler's output. -/
inductive ServerEvent where
  | send (ws : Nat) (msgType : String)
  | sendError (ws : Nat) (message : String)
  | broadcast (roomId : String) (msgType : String) (excludeWs : Option Nat)
  | closeConn (ws : Nat)
  deriving Repr, DecidableEq

/-- A parsed client frame: the `type` discriminator with its payload fields
(`handleMessage`'s switch).  `unknown` stands for any other `type` string. -/
inductive ClientMessage where
  | create_room (playerName : String) (maxPlayers : Nat)
  | join_room (roomId : String) (playerName : String)
  | leave_room
  | start_game
  | roll_dice
  | buy_property (tileId : Nat)
  | build (tileId : Nat)
  | end_turn
  | chat (message : String)
  | unknown (msgType : String)
  deriving Repr, DecidableEq

/-- Oracle for the `Math.random()`-derived values a single message can
consume: `generateRoomId()`, `generatePlayerId()` and the two dice
(each die is `Math.floor(Math.random() * 6) + 1`). -/
structure Rng where
  roomId : String
  playerId : String
  dice1 : Nat
  dice2 : Nat
  deriving Repr, DecidableEq

/-- JS `Map.get` on an insertion-ordered association list. -/
def mapGet {α β : Type} [DecidableEq α] : List (α × β) → α → Option β
  | [], _ => none
  | (k', v) :: rest, k => if k' = k then some v else mapGet rest k

/-- JS `Map.set`: replaces in place when the key exists, else appends. -/
def mapSet {α β : Type} [DecidableEq α] : List (α × β) → α → β → List (α × β)
  | [], k, v => [(k, v)]
  | (k', v') :: rest, k, v =>
      if k' = k then (k, v) :: rest else (k', v') :: mapSet rest k v

/-- JS `Map.delete` (keys are unique, so removing the first hit suffices). -/
def mapDelete {α β : Type} [DecidableEq α] : List (α × β) → α → List (α × β)
  | [], _ => []
  | (k', v') :: rest, k => if k' = k then rest else (k', v') :: mapDelete rest k

/-- `Array.from(map.keys())`. -/
def mapKeys {α β : Type} (m : List (α × β)) : List α := m.map Prod.fst

/-- JS `Array.prototype.indexOf`: the index of the first occurrence, `-1` when
absent. -/
def jsIndexOf : List String → String → Int
  | [], _ => -1
  | x :: rest, a =>
      if x = a then 0
      else
        let r := jsIndexOf rest a
        if r = -1 then -1 else r + 1

/-- `GameServer.initializeGameState` (lines 652-666): `playerIds[0]` is
`undefined` on an empty roster (unreachable: a game needs ≥ 2 players);
`getD 0 ""` stands for that indexing. -/
def initializeGameState (room : Room) : ServerGameState :=
  let playerIds := mapKeys room.players
  { currentPlayerId := playerIds.getD 0 "",
    players := playerIds.map fun id =>
      { id := id, position := 0, money := 2000000, properties := [], inJail := false },
    lastDiceRoll := none }

/-- `GameServer.handleCreateRoom` (lines 364-403).  `generateRoomId()` and
`generatePlayerId()` are the oracle's draws; the generated code is stored with
`this.rooms.set(roomId, room)` with no uniqueness check against the
directory. -/
def handleCreateRoom (rng : Rng) (s : ServerState) (ws : Nat)
    (playerName : String) (maxPlayers : Nat) : ServerState × List ServerEvent :=
  let roomId := rng.roomId
  let playerId := rng.playerId
  let player : ServerPlayer := { id := playerId, name := playerName, ws := ws, isReady := false }
  let room : Room :=
    { id := roomId, hostId := playerId, maxPlayers := maxPlayers,
      players := mapSet [] playerId player, gameState := none, isStarted := false }
  let rooms := mapSet s.rooms roomId room
  let clients := mapSet s.clients ws
    { playerId := some playerId, roomId := some roomId, playerName := some playerName }
  ({ rooms := rooms, clients := clients }, [ServerEvent.send ws "room_created"])

/-- `GameServer.handleJoinRoom` (lines 405-464). -/
def handleJoinRoom (rng : Rng) (s : ServerState) (ws : Nat)
    (roomId : String) (playerName : String) : ServerState × List ServerEvent :=
  match mapGet s.rooms roomId with
  | none => (s, [ServerEvent.sendError ws "Room not found"])
  | some room =>
    if room.isStarted then (s, [ServerEvent.sendError ws "Game already started"])
    else if room.maxPlayers ≤ room.players.length then
      (s, [ServerEvent.sendError ws "Room is full"])
    else
      let playerId := rng.playerId
      let player : ServerPlayer := { id := playerId, name := playerName, ws := ws, isReady := false }
      let room := { room with players := mapSet room.players playerId player }
      let rooms := mapSet s.rooms roomId room
      let clients := mapSet s.clients ws
        { playerId := some playerId, roomId := some roomId, playerName := some playerName }
      ({ rooms := rooms, clients := clients },
       [ServerEvent.send ws "room_joined",
        ServerEvent.broadcast roomId "player_joined" (some ws)])

/-- `GameServer.handleLeaveRoom` (lines 466-492). -/
def handleLeaveRoom (s : ServerState) (ws : Nat) : ServerState × List ServerEvent :=
  match mapGet s.clients ws with
  | none => (s, [])
  | some ci =>
    match ci.roomId with
    | none => (s, [])
    | some rid =>
      match mapGet s.rooms rid with
      | none => (s, [])
      | some room =>
        let players :=
          match ci.playerId with
          | some pid => mapDelete room.players pid
          | none => room.players
        let room := { room with players := players }
        let rooms :=
          if players.length = 0 then mapDelete s.rooms rid
          else mapSet s.rooms rid room
        let clients := mapSet s.clients ws { ci with roomId := none, playerId := none }
        ({ rooms := rooms, clients := clients },
         [ServerEvent.broadcast rid "player_left" none])

/-- `GameServer.handleStartGame` (lines 494-524). -/
def handleStartGame (s : ServerState) (ws : Nat) : ServerState × List ServerEvent :=
  match mapGet s.clients ws with
  | none => (s, [])
  | some ci =>
    match (match ci.roomId with | some rid => mapGet s.rooms rid | none => none) with
    | none => (s, [ServerEvent.sendError ws "Room not found"])
    | some room =>
      if ci.playerId ≠ some room.hostId then
        (s, [ServerEvent.sendError ws "Only host can start game"])
      else if room.players.length < 2 then
        (s, [ServerEvent.sendError ws "Need at least 2 players"])
      else
        let room := { room with isStarted := true }
        let room := { room with gameState := some (initializeGameState room) }
        let rid := ci.roomId.getD ""
        ({ s with rooms := mapSet s.rooms rid room },
         [ServerEvent.broadcast rid "game_started" none])

/-- `GameServer.handleRollDice` (lines 526-564): the only handler that checks
the current player. -/
def handleRollDice (rng : Rng) (s : ServerState) (ws : Nat) : ServerState × List ServerEvent :=
  match mapGet s.clients ws with
  | none => (s, [])
  | some ci =>
    match (match ci.roomId with | some rid => mapGet s.rooms rid | none => none) with
    | none => (s, [ServerEvent.sendError ws "Game not started"])
    | some room =>
      match room.gameState with
      | none => (s, [ServerEvent.sendError ws "Game not started"])
      | some gameState =>
        if ci.playerId ≠ some gameState.currentPlayerId then
          (s, [ServerEvent.sendError ws "Not your turn"])
        else
          let dice1 := rng.dice1
          let dice2 := rng.dice2
          let diceResult : DiceResult :=
            { dice1 := dice1, dice2 := dice2, total := dice1 + dice2,
              isDouble := dice1 == dice2 }
          let rid := ci.roomId.getD ""
          let gameState := { gameState with lastDiceRoll := some diceResult }
          ({ s with rooms := mapSet s.rooms rid { room with gameState := some gameState } },
           [ServerEvent.broadcast rid "dice_rolled" none])

/-- `GameServer.handleBuyProperty` (lines 566-582): no current-player or
phase check, no state change — the purchase is only broadcast. -/
def handleBuyProperty (s : ServerState) (ws : Nat) (tileId : Nat) :
    ServerState × List ServerEvent :=
  match mapGet s.clients ws with
  | none => (s, [])
  | some ci =>
    match (match ci.roomId with | some rid => mapGet s.rooms rid | none => none) with
    | none => (s, [])
    | some room =>
      match room.gameState with
      | none => (s, [])
      | some _ =>
        let _ := tileId
        (s, [ServerEvent.broadcast (ci.roomId.getD "") "property_bought" none])

/-- `GameServer.handleBuild` (lines 584-600): same shape as
`handleBuyProperty`. -/
def handleBuild (s : ServerState) (ws : Nat) (tileId : Nat) :
    ServerState × List ServerEvent :=
  match mapGet s.clients ws with
  | none => (s, [])
  | some ci =>
    match (match ci.roomId with | some rid => mapGet s.rooms rid | none => none) with
    | none => (s, [])
    | some room =>
      match room.gameState with
      | none => (s, [])
      | some _ =>
        let _ := tileId
        (s, [ServerEvent.broadcast (ci.roomId.getD "") "building_built" none])

/-- `GameServer.handleEndTurn` (lines 602-623): advances `currentPlayerId`
for any requester of a started room; there is no current-player check and no
error path once the game exists. -/
def handleEndTurn (s : ServerState) (ws : Nat) : ServerState × List ServerEvent :=
  match mapGet s.clients ws with
  | none => (s, [])
  | some ci =>
    match (match ci.roomId with | some rid => mapGet s.rooms rid | none => none) with
    | none => (s, [])
    | some room =>
      match room.gameState with
      | none => (s, [])
      | some gameState =>
        let playerIds := mapKeys room.players
        let currentIndex := jsIndexOf playerIds gameState.currentPlayerId
        let nextIndex := (currentIndex + 1).toNat % playerIds.length
        let gameState := { gameState with currentPlayerId := playerIds.getD nextIndex "" }
        let rid := ci.roomId.getD ""
        ({ s with rooms := mapSet s.rooms rid { room with gameState := some gameState } },
         [ServerEvent.broadcast rid "turn_changed" none])

/-- `GameServer.handleChat` (lines 625-640). -/
def handleChat (s : ServerState) (ws : Nat) (message : String) :
    ServerState × List ServerEvent :=
  match mapGet s.clients ws with
  | none => (s, [])
  | some ci =>
    match ci.roomId with
    | none => (s, [])
    | some rid =>
      let _ := message
      (s, [ServerEvent.broadcast rid "chat_message" none])

/-- `GameServer.handleMessage` (lines 318-362): the `type` dispatch. -/
def handleMessage (rng : Rng) (s : ServerState) (ws : Nat) (msg : ClientMessage) :
    ServerState × List ServerEvent :=
  match msg with
  | .create_room playerName maxPlayers => handleCreateRoom rng s ws playerName maxPlayers
  | .join_room roomId playerName => handleJoinRoom rng s ws roomId playerName
  | .leave_room => handleLeaveRoom s ws
  | .start_game => handleStartGame s ws
  | .roll_dice => handleRollDice rng s ws
  | .buy_property tileId => handleBuyProperty s ws tileId
  | .build tileId => handleBuild s ws tileId
  | .end_turn => handleEndTurn s ws
  | .chat message => handleChat s ws message
  | .unknown t => (s, [ServerEvent.sendError ws ("Unknown message type: " ++ t)])

/-- The `ws.on('message', ...)` callback (lines 291-299): `JSON.parse` inside
`try`; its outcome is the `Option ClientMessage` argument.  A frame that does
not parse is answered with `sendError(ws, 'Invalid message format')`, the
connection stays open and no state is touched. -/
def onWsMessage (rng : Rng) (s : ServerState) (ws : Nat) (parsed : Option ClientMessage) :
    ServerState × List ServerEvent :=
  match parsed with
  | none => (s, [ServerEvent.sendError ws "Invalid message format"])
  | some msg => handleMessage rng s ws msg

/-! ## Concrete states used by witnesses and counterexamples -/

/-- Player 1 exactly as `initializePlayers` creates it. -/
def pl0 : Player :=
  { id := 0, name := "Player 1", color := 0xff0000, position := 0, money := 2000000,
    properties := [], inJail := false, jailTurns := 0, doublesCount := 0 }

/-- Player 2 exactly as `initializePlayers` creates it. -/
def pl1 : Player :=
  { id := 1, name := "Player 2", color := 0x00ff00, position := 0, money := 2000000,
    properties := [], inJail := false, jailTurns := 0, doublesCount := 0 }

/-- A freshly started two-player client game: the result of `createBoard` and
`initializePlayers(2)` with player 1 (id 0) to act. -/
def gs2 : GameState :=
  { players := [pl0, pl1], tiles := createBoard, tileData := initializeTileData,
    currentPlayerIndex := 0, gamePhase := "PLAYING", turnPhase := "ROLL" }

/-- The static data of tile 1. -/
def taipei : TileInfo :=
  { id := 1, name := "Taipei", type := "city", price := 50000, rent := some 2000 }

/-- `gs2` after tile 1 was bought by player 0 (owner recorded through
`updateTile`, exactly as `buyProperty` records it), with player 2 (id 1) the
player whose action is being processed. -/
def gsOwned0 : GameState :=
  { gs2 with tiles := updateTile createBoard 1 { owner := some (some 0) },
             currentPlayerIndex := 1 }

/-- A state whose acting player sits on the Deserted Island with two
consecutive doubles already rolled (reachable: two doubles in a row, the
second landing on tile 10, which jails via `handleSpecialTile`). -/
def gsJail2 : GameState :=
  { gs2 with players := [{ pl0 with inJail := true, jailTurns := 3,
                                    doublesCount := 2, position := 10 }, pl1] }

/-- A jailed acting player with no doubles streak, two jail turns left. -/
def gsJail0 : GameState :=
  { gs2 with players := [{ pl0 with inJail := true, jailTurns := 2,
                                    position := 10 }, pl1] }

/-- A double 4-4 as `handleRollDice` would build it. -/
def dDouble : DiceResult := { dice1 := 4, dice2 := 4, total := 8, isDouble := true }

/-- A non-double 2-5. -/
def dPlain : DiceResult := { dice1 := 2, dice2 := 5, total := 7, isDouble := false }

/-- Roster entry for the host of the started server room. -/
def spAlice : ServerPlayer := { id := "p0", name := "Alice", ws := 1, isReady := false }

/-- Roster entry for the second player of the started server room. -/
def spBob : ServerPlayer := { id := "p1", name := "Bob", ws := 2, isReady := false }

/-- The game state of the started two-player room: `"p0"` to act. -/
def gStarted : ServerGameState :=
  { currentPlayerId := "p0",
    players := [ { id := "p0", position := 0, money := 2000000, properties := [], inJail := false },
                 { id := "p1", position := 0, money := 2000000, properties := [], inJail := false } ],
    lastDiceRoll := none }

/-- A started two-player room whose current player is `"p0"`. -/
def roomStarted : Room :=
  { id := "ROOM01", hostId := "p0", maxPlayers := 4,
    players := [("p0", spAlice), ("p1", spBob)],
    gameState := some gStarted,
    isStarted := true }

/-- Server state hosting `roomStarted`, with Alice on connection 1 and Bob on
connection 2. -/
def sStarted : ServerState :=
  { rooms := [("ROOM01", roomStarted)],
    clients := [ (1, { playerId := some "p0", roomId := some "ROOM01", playerName := some "Alice" }),
                 (2, { playerId := some "p1", roomId := some "ROOM01", playerName := some "Bob" }) ] }

/-- An existing room whose code `"ABC123"` a later `create_room` collides
with. -/
def roomOld : Room :=
  { id := "ABC123", hostId := "h1", maxPlayers := 4,
    players := [("h1", { id := "h1", name := "Host", ws := 7, isReady := false })],
    gameState := none, isStarted := false }

/-- Directory already holding `roomOld`, plus one fresh connection 5. -/
def sDir : ServerState :=
  { rooms := [("ABC123", roomOld)],
    clients := [(5, { playerId := none, roomId := none, playerName := none })] }

/-- An oracle whose room-code draw collides with the existing `"ABC123"`. -/
def rngCollide : Rng := { roomId := "ABC123", playerId := "p9", dice1 := 1, dice2 := 1 }

/-- Player 1 standing on tile 35. -/
def p35 : Player := { pl0 with position := 35 }

/-- The two-player game with player 1 on tile 35. -/
def gsPos35 : GameState := { gs2 with players := [p35, pl1] }

/-- The acting player with two consecutive doubles already rolled. -/
def pD2 : Player := { pl0 with doublesCount := 2 }

/-- The two-player game whose acting player has doubles streak 2. -/
def gsD2 : GameState := { gs2 with players := [pD2, pl1] }

/-- The jailed acting player of `gsJail0`. -/
def pJ0 : Player := { pl0 with inJail := true, jailTurns := 2, position := 10 }

/-- The board's tile 1 as `createBoard` builds it. -/
def tile1 : Tile := { tileId := 1, tileInfo := taipei, building := { level := 0 }, owner := none }

/-- Tile 1 after player 0 bought it. -/
def tile1Owned : Tile := { tile1 with owner := some 0 }

/-! ## Helper lemmas about lists and association lists -/

/-- Setting at `i` leaves the first `i` elements alone. -/
theorem take_set_self {α : Type} (l : List α) (i : Nat) (a : α) :
    (l.set i a).take i = l.take i := by
  rw [List.set_take]
  exact List.set_eq_of_length_le (by simp)

/-- An index that reads back `some` is inside the list. -/
theorem lt_length_of_getElem? {α : Type} {l : List α} {i : Nat} {a : α}
    (h : l[i]? = some a) : i < l.length := by
  rcases List.getElem?_eq_some.mp h with ⟨hl, _⟩
  exact hl

/-- `find?` by id hits the element at `i` when no earlier element has the id. -/
theorem find?_id_of_getElem? {l : List Player} {i : Nat} {p : Player} {pid : Nat}
    (hp : l[i]? = some p) (hid : p.id = pid)
    (hfresh : ∀ q ∈ l.take i, q.id ≠ pid) :
    l.find? (fun q => q.id == pid) = some p := by
  induction l generalizing i with
  | nil => simp at hp
  | cons a tl ih =>
    cases i with
    | zero =>
      simp only [List.getElem?_cons_zero, Option.some.injEq] at hp
      subst hp
      exact List.find?_cons_of_pos _ (by simp [hid])
    | succ j =>
      have ha : a.id ≠ pid := hfresh a (by simp)
      rw [List.find?_cons_of_neg _ (by simp [ha])]
      exact ih (by simpa using hp) (fun q hq => hfresh q (by simp [hq]))

/-- `updateFirst` rewrites exactly the element at `i` when no earlier element
has the id. -/
theorem updateFirst_eq_set {l : List Player} {i : Nat} {p : Player} {pid : Nat}
    (f : Player → Player) (hp : l[i]? = some p) (hid : p.id = pid)
    (hfresh : ∀ q ∈ l.take i, q.id ≠ pid) :
    updateFirst l pid f = l.set i (f p) := by
  induction l generalizing i with
  | nil => simp at hp
  | cons a tl ih =>
    cases i with
    | zero =>
      simp only [List.getElem?_cons_zero, Option.some.injEq] at hp
      subst hp
      simp [updateFirst, hid]
    | succ j =>
      have ha : a.id ≠ pid := hfresh a (by simp)
      simp only [updateFirst, ha, if_false, List.set_cons_succ]
      rw [ih (by simpa using hp) (fun q hq => hfresh q (by simp [hq]))]

/-- `mapGet` after `mapSet` at the same key. -/
theorem mapGet_mapSet_self {α β : Type} [DecidableEq α]
    (m : List (α × β)) (k : α) (v : β) : mapGet (mapSet m k v) k = some v := by
  induction m with
  | nil => simp [mapGet, mapSet]
  | cons e rest ih =>
    by_cases h : e.1 = k
    · simp [mapSet, mapGet, h]
    · simpa [mapSet, mapGet, h] using ih

/-- `mapGet` after `mapSet` at a different key. -/
theorem mapGet_mapSet_ne {α β : Type} [DecidableEq α]
    (m : List (α × β)) (k c : α) (v : β) (h : c ≠ k) :
    mapGet (mapSet m k v) c = mapGet m c := by
  have hk : k ≠ c := Ne.symm h
  induction m with
  | nil => simp [mapGet, mapSet, hk]
  | cons e rest ih =>
    by_cases he : e.1 = k
    · simp [mapSet, mapGet, he, hk]
    · by_cases hc : e.1 = c <;> simp [mapSet, mapGet, he, hc, h, ih]

/-- Unfolding of `movePlayer` when the moving player sits at index `i` and no
earlier entry shares its id. -/
theorem movePlayer_eq_set {gs : GameState} {i : Nat} {p : Player} (d : Nat)
    (hp : gs.players[i]? = some p)
    (hfresh : ∀ q ∈ gs.players.take i, q.id ≠ p.id) :
    movePlayer gs p.id d = { gs with
      players := gs.players.set i
        { p with position := (p.position + d) % 40,
                 money := p.money + (if (p.position + d) % 40 < p.position then 200000 else 0) } } := by
  rw [movePlayer, find?_id_of_getElem? hp rfl hfresh]
  dsimp only
  rw [updateFirst_eq_set _ hp rfl hfresh]
  by_cases hw : (p.position + d) % 40 < p.position <;> simp [hw]

/-- Unfolding of the commit-and-move tail of `handleDiceRoll`. -/
theorem diceRollMovePhase_eq (gs : GameState) (q : Player) (total : Nat)
    (hlen : gs.currentPlayerIndex < gs.players.length)
    (hfresh : ∀ r ∈ gs.players.take gs.currentPlayerIndex, r.id ≠ q.id) :
    diceRollMovePhase gs q total = { gs with
      players := gs.players.set gs.currentPlayerIndex
        { q with position := (q.position + total) % 40,
                 money := q.money + (if (q.position + total) % 40 < q.position then 200000 else 0) },
      turnPhase := "MOVE" } := by
  rw [diceRollMovePhase]
  rw [movePlayer_eq_set total (by simpa using List.getElem?_set_eq_of_lt q hlen)
    (by rw [take_set_self]; exact hfresh)]
  simp [List.set_set]

/-! ## Claim theorems -/

/-- C1 (amended): for any member connection of a room whose game has started —
current player or not — `buy_property` and `build` are never rejected (no
error event) and mutate no state, only broadcasting an event; `end_turn` is
never rejected either and always advances `currentPlayerId` to the roster
successor of the current id.  Only `roll_dice` checks the current player. -/
theorem server_actions_no_current_player_check
    (s : ServerState) (ws : Nat) (ci : ClientInfo) (rid : String) (room : Room)
    (g : ServerGameState) (tileId : Nat)
    (hc : mapGet s.clients ws = some ci)
    (hrid : ci.roomId = some rid)
    (hroom : mapGet s.rooms rid = some room)
    (hg : room.gameState = some g) :
    handleBuyProperty s ws tileId = (s, [ServerEvent.broadcast rid "property_bought" none])
    ∧ handleBuild s ws tileId = (s, [ServerEvent.broadcast rid "building_built" none])
    ∧ handleEndTurn s ws =
        ({ s with rooms := mapSet s.rooms rid { room with gameState := some { g with
              currentPlayerId := (mapKeys room.players).getD
                ((jsIndexOf (mapKeys room.players) g.currentPlayerId + 1).toNat
                  % (mapKeys room.players).length) "" } } },
         [ServerEvent.broadcast rid "turn_changed" none]) := by
  refine ⟨?_, ?_, ?_⟩ <;>
    simp [handleBuyProperty, handleBuild, handleEndTurn, hc, hrid, hroom, hg]

/-- C1 witness: in the started two-player room, connection 2 (Bob, `"p1"`,
not the current player `"p0"`) issues the three requests; none is rejected
and `end_turn` flips the turn. -/
theorem server_actions_no_current_player_check_witness :
    mapGet sStarted.clients 2 =
      some { playerId := some "p1", roomId := some "ROOM01", playerName := some "Bob" }
    ∧ handleBuyProperty sStarted 2 3 =
        (sStarted, [ServerEvent.broadcast "ROOM01" "property_bought" none]) :=
  ⟨rfl, (server_actions_no_current_player_check sStarted 2
      { playerId := some "p1", roomId := some "ROOM01", playerName := some "Bob" }
      "ROOM01" roomStarted gStarted 3 rfl rfl rfl rfl).1⟩

/-- C1 counterexample: `"p1"` (connection 2) is not the current player
(`"p0"`), yet its `end_turn` is not answered with any error and mutates
`currentPlayerId` to `"p1"`, and its `buy_property`/`build` are not rejected
either (they broadcast success events).  The claim requires an
`AuthorizationError` and an unchanged state. -/
theorem endTurn_by_noncurrent_mutates :
    ((mapGet sStarted.rooms "ROOM01").bind Room.gameState).map ServerGameState.currentPlayerId
        = some "p0"
    ∧ (mapGet sStarted.clients 2).map ClientInfo.playerId = some (some "p1")
    ∧ (handleEndTurn sStarted 2).2 = [ServerEvent.broadcast "ROOM01" "turn_changed" none]
    ∧ ((mapGet (handleEndTurn sStarted 2).1.rooms "ROOM01").bind Room.gameState).map
        ServerGameState.currentPlayerId = some "p1"
    ∧ handleBuyProperty sStarted 2 1 =
        (sStarted, [ServerEvent.broadcast "ROOM01" "property_bought" none])
    ∧ handleBuild sStarted 2 1 =
        (sStarted, [ServerEvent.broadcast "ROOM01" "building_built" none]) :=
  ⟨rfl, rfl, rfl, rfl, rfl, rfl⟩

/-- C4: a move resolution puts the moving player on `(old + dice) % 40`,
which lies in `[0, 40)`; the salary 200,000 is credited exactly once iff the
new position is strictly below the old one, the player's money is otherwise
unchanged, and no other player or tile is touched. -/
theorem movePlayer_resolution (gs : GameState) (i : Nat) (p : Player) (d : Nat)
    (hp : gs.players[i]? = some p)
    (hfresh : ∀ q ∈ gs.players.take i, q.id ≠ p.id) :
    (p.position + d) % 40 < 40
    ∧ ((movePlayer gs p.id d).players[i]?).map Player.position = some ((p.position + d) % 40)
    ∧ ((movePlayer gs p.id d).players[i]?).map Player.money =
        some (p.money + (if (p.position + d) % 40 < p.position then 200000 else 0))
    ∧ (∀ j, j ≠ i → (movePlayer gs p.id d).players[j]? = gs.players[j]?)
    ∧ (movePlayer gs p.id d).tiles = gs.tiles
    ∧ (movePlayer gs p.id d).turnPhase = gs.turnPhase := by
  have hlt : i < gs.players.length := lt_length_of_getElem? hp
  rw [movePlayer_eq_set d hp hfresh]
  refine ⟨Nat.mod_lt _ (by norm_num), ?_, ?_, ?_, rfl, rfl⟩
  · rw [show (gs.players.set i _)[i]? = some _ from List.getElem?_set_eq_of_lt _ hlt]
    rfl
  · rw [show (gs.players.set i _)[i]? = some _ from List.getElem?_set_eq_of_lt _ hlt]
    rfl
  · intro j hj
    exact List.getElem?_set_ne (Ne.symm hj)

/-- C4 witness: from position 35 a total of 8 lands on tile 3 and credits the
salary exactly once (spec scenario 4). -/
theorem movePlayer_resolution_witness :
    (35 + 8) % 40 < 40
    ∧ ((movePlayer gsPos35 0 8).players[0]?).map Player.position = some 3
    ∧ ((movePlayer gsPos35 0 8).players[0]?).map Player.money = some 2200000 := by
  have h := movePlayer_resolution gsPos35 0 p35 8 rfl (by decide)
  exact ⟨h.1, h.2.1, h.2.2.1⟩

/-- Unfolding of `handleDiceRoll` in the `ROLL` phase with acting player `p`:
the doubles bookkeeping happens first and the rest goes through the jail
phase. -/
theorem handleDiceRoll_eq (gs : GameState) (p : Player) (d : DiceResult)
    (hphase : gs.turnPhase = "ROLL")
    (hp : gs.players[gs.currentPlayerIndex]? = some p) :
    handleDiceRoll gs d =
      if d.isDouble then
        if 3 ≤ p.doublesCount + 1 then
          { gs with
            players := gs.players.set gs.currentPlayerIndex
              { p with inJail := true, jailTurns := 3, position := 10, doublesCount := 0 },
            turnPhase := "END_TURN" }
        else diceRollJailPhase gs { p with doublesCount := p.doublesCount + 1 } d
      else diceRollJailPhase gs { p with doublesCount := 0 } d := by
  rw [handleDiceRoll]
  rw [if_neg (by simp [hphase])]
  simp only [getCurrentPlayer, hp]

/-- After the commit-and-move tail, the acting slot holds the committed player
moved by the dice total. -/
theorem diceRollMovePhase_getElem (gs : GameState) (q : Player) (total : Nat)
    (hlen : gs.currentPlayerIndex < gs.players.length)
    (hfresh : ∀ r ∈ gs.players.take gs.currentPlayerIndex, r.id ≠ q.id) :
    (diceRollMovePhase gs q total).players[gs.currentPlayerIndex]? =
      some { q with position := (q.position + total) % 40,
                    money := q.money + (if (q.position + total) % 40 < q.position then 200000 else 0) } := by
  rw [diceRollMovePhase_eq gs q total hlen hfresh]
  exact List.getElem?_set_eq_of_lt _ hlen

/-- C5: processing a roll for the acting player increments the
consecutive-doubles counter on a double and resets it to 0 on a non-double;
when the incremented counter reaches 3 the player is placed on tile 10,
jailed with 3 jail turns, the counter is reset to 0 and the turn ends at once
with no movement resolution. -/
theorem handleDiceRoll_doubles (gs : GameState) (p : Player) (d : DiceResult)
    (hphase : gs.turnPhase = "ROLL")
    (hp : gs.players[gs.currentPlayerIndex]? = some p)
    (hfresh : ∀ q ∈ gs.players.take gs.currentPlayerIndex, q.id ≠ p.id) :
    (d.isDouble = true → 3 ≤ p.doublesCount + 1 →
      handleDiceRoll gs d = { gs with
        players := gs.players.set gs.currentPlayerIndex
          { p with inJail := true, jailTurns := 3, position := 10, doublesCount := 0 },
        turnPhase := "END_TURN" })
    ∧ (d.isDouble = true → p.doublesCount + 1 < 3 →
        ((handleDiceRoll gs d).players[gs.currentPlayerIndex]?).map Player.doublesCount
          = some (p.doublesCount + 1))
    ∧ (d.isDouble = false →
        ((handleDiceRoll gs d).players[gs.currentPlayerIndex]?).map Player.doublesCount
          = some 0) := by
  have hlt : gs.currentPlayerIndex < gs.players.length := lt_length_of_getElem? hp
  rw [handleDiceRoll_eq gs p d hphase hp]
  refine ⟨?_, ?_, ?_⟩
  · intro hd h3
    simp [hd, h3]
  · intro hd h3
    rw [if_pos hd, if_neg (by omega)]
    by_cases hj : p.inJail
    · simp [diceRollJailPhase, hj, hd]
      exact ⟨_, diceRollMovePhase_getElem _ _ _ hlt hfresh, rfl⟩
    · simp [diceRollJailPhase, hj]
      exact ⟨_, diceRollMovePhase_getElem _ _ _ hlt hfresh, rfl⟩
  · intro hd
    rw [if_neg (by simp [hd])]
    by_cases hj : p.inJail
    · by_cases hjt : p.jailTurns - 1 ≤ 0
      · simp [diceRollJailPhase, hj, hd, hjt]
        exact ⟨_, diceRollMovePhase_getElem _ _ _ hlt hfresh, rfl⟩
      · simp [diceRollJailPhase, hj, hd, hjt, List.getElem?_set_eq_of_lt _ hlt]
    · simp [diceRollJailPhase, hj]
      exact ⟨_, diceRollMovePhase_getElem _ _ _ hlt hfresh, rfl⟩

/-- C5 witness: with streak 2, a third double sends the acting player to
tile 10 with 3 jail turns, streak reset, and ends the turn at once. -/
theorem handleDiceRoll_doubles_witness :
    gsD2.players[0]? = some pD2 ∧ pD2.doublesCount = 2 ∧ dDouble.isDouble = true
    ∧ handleDiceRoll gsD2 dDouble = { gsD2 with
        players := gsD2.players.set 0
          { pD2 with inJail := true, jailTurns := 3, position := 10, doublesCount := 0 },
        turnPhase := "END_TURN" } := by
  have h := handleDiceRoll_doubles gsD2 pD2 dDouble rfl rfl (by decide)
  exact ⟨rfl, rfl, rfl, h.1 rfl (by decide)⟩

/-- C6 (amended): for a roll by a jailed acting player that does not complete
a third consecutive double: a double clears the jail flag and movement
proceeds this same turn using the roll's total; a non-double decrements the
jail counter, releasing and moving the player when it reaches 0 and otherwise
ending the turn with the position unchanged.  (A double that completes the
three-doubles streak instead re-jails the player with no movement — see the
counterexample.) -/
theorem handleDiceRoll_jailed (gs : GameState) (p : Player) (d : DiceResult)
    (hphase : gs.turnPhase = "ROLL")
    (hp : gs.players[gs.currentPlayerIndex]? = some p)
    (hfresh : ∀ q ∈ gs.players.take gs.currentPlayerIndex, q.id ≠ p.id)
    (hjail : p.inJail = true)
    (hnethird : d.isDouble = true → p.doublesCount + 1 < 3) :
    (d.isDouble = true →
      handleDiceRoll gs d = { gs with
        players := gs.players.set gs.currentPlayerIndex
          { p with doublesCount := p.doublesCount + 1, inJail := false, jailTurns := 0,
                   position := (p.position + d.total) % 40,
                   money := p.money +
                     (if (p.position + d.total) % 40 < p.position then 200000 else 0) },
        turnPhase := "MOVE" })
    ∧ (d.isDouble = false → p.jailTurns = 1 →
      handleDiceRoll gs d = { gs with
        players := gs.players.set gs.currentPlayerIndex
          { p with doublesCount := 0, inJail := false, jailTurns := 0,
                   position := (p.position + d.total) % 40,
                   money := p.money +
                     (if (p.position + d.total) % 40 < p.position then 200000 else 0) },
        turnPhase := "MOVE" })
    ∧ (d.isDouble = false → 2 ≤ p.jailTurns →
      handleDiceRoll gs d = { gs with
        players := gs.players.set gs.currentPlayerIndex
          { p with doublesCount := 0, jailTurns := p.jailTurns - 1 },
        turnPhase := "END_TURN" }) := by
  have hlt : gs.currentPlayerIndex < gs.players.length := lt_length_of_getElem? hp
  rw [handleDiceRoll_eq gs p d hphase hp]
  refine ⟨?_, ?_, ?_⟩
  · intro hd
    rw [if_pos hd, if_neg (by have := hnethird hd; omega)]
    simp only [diceRollJailPhase, hjail, if_true, hd]
    exact diceRollMovePhase_eq gs _ d.total hlt hfresh
  · intro hd h1
    rw [if_neg (by simp [hd])]
    simp only [diceRollJailPhase, hjail, if_true, hd, h1]
    exact diceRollMovePhase_eq gs _ d.total hlt hfresh
  · intro hd h2
    rw [if_neg (by simp [hd])]
    simp [diceRollJailPhase, hjail, hd, show ¬((p.jailTurns - 1 : Int) ≤ 0) from by omega]

/-- C6 witness: the jailed player (no doubles streak, 2 jail turns left)
escapes and moves on a double 4-4 (tile 10 to tile 18), and on a non-double
stays on tile 10 with one jail turn left and the turn over. -/
theorem handleDiceRoll_jailed_witness :
    gsJail0.players[0]? = some pJ0 ∧ pJ0.inJail = true ∧ pJ0.jailTurns = 2
    ∧ handleDiceRoll gsJail0 dDouble = { gsJail0 with
        players := gsJail0.players.set 0
          { pJ0 with doublesCount := 1, inJail := false, jailTurns := 0,
                     position := 18, money := 2000000 },
        turnPhase := "MOVE" }
    ∧ handleDiceRoll gsJail0 dPlain = { gsJail0 with
        players := gsJail0.players.set 0 { pJ0 with doublesCount := 0, jailTurns := 1 },
        turnPhase := "END_TURN" } := by
  have h := handleDiceRoll_jailed gsJail0 pJ0 dDouble rfl rfl (by decide) rfl (by decide)
  have h' := handleDiceRoll_jailed gsJail0 pJ0 dPlain rfl rfl (by decide) rfl (by decide)
  exact ⟨rfl, rfl, rfl, h.1 rfl, h'.2.2 rfl (by decide)⟩

/-- C6 counterexample: a reachable state (double, move, double, land on the
Deserted Island) gives a jailed acting player with doubles streak 2 and
`jailTurns = 3`.  Its next roll is a double, which the claim says clears the
jail flag and moves the player to `(10 + 8) % 40 = 18`; the code instead hits
the three-doubles rule first: the player stays jailed on tile 10 and the turn
ends with no movement. -/
theorem jailed_third_double_stays_jailed :
    (getCurrentPlayer gsJail2).map Player.inJail = some true
    ∧ (getCurrentPlayer gsJail2).map Player.doublesCount = some 2
    ∧ dDouble.isDouble = true
    ∧ ((handleDiceRoll gsJail2 dDouble).players[0]?).map Player.inJail = some true
    ∧ ((handleDiceRoll gsJail2 dDouble).players[0]?).map Player.position = some 10
    ∧ (handleDiceRoll gsJail2 dDouble).turnPhase = "END_TURN" :=
  ⟨rfl, rfl, rfl, rfl, rfl, rfl⟩

/-- C8 (amended): `handleCreateRoom` stores the new room under the drawn code
unconditionally: afterwards the directory maps the generated code to the new
room (overwriting whatever room held that code) and every other code's entry
is unchanged.  No collision check against the live directory and no
regeneration is performed. -/
theorem handleCreateRoom_unconditional_insert (rng : Rng) (s : ServerState)
    (ws : Nat) (playerName : String) (maxPlayers : Nat) :
    (mapGet (handleCreateRoom rng s ws playerName maxPlayers).1.rooms rng.roomId).map Room.hostId
        = some rng.playerId
    ∧ ∀ c, c ≠ rng.roomId →
        mapGet (handleCreateRoom rng s ws playerName maxPlayers).1.rooms c = mapGet s.rooms c := by
  constructor
  · simp [handleCreateRoom, mapGet_mapSet_self]
  · intro c hcne
    simp [handleCreateRoom, mapGet_mapSet_ne _ _ _ _ hcne]

/-- C8 counterexample: the directory holds a room `"ABC123"` (host `"h1"`);
`create_room` draws the colliding code `"ABC123"` and the directory afterwards
maps that code to the new room (host `"p9"`) and still has exactly one entry:
the old room was overwritten, not preserved, and no regeneration happened. -/
theorem handleCreateRoom_overwrites_existing :
    (mapGet sDir.rooms "ABC123").map Room.hostId = some "h1"
    ∧ (mapGet (handleCreateRoom rngCollide sDir 5 "Eve" 4).1.rooms "ABC123").map Room.hostId
        = some "p9"
    ∧ ((handleCreateRoom rngCollide sDir 5 "Eve" 4).1.rooms).length = 1 :=
  ⟨rfl, rfl, rfl⟩

/-- C9: a frame that fails to parse (the `JSON.parse` `catch` branch) is
answered with exactly one event, `sendError(ws, 'Invalid message format')`,
to the originating connection; the server state is returned unchanged and no
`closeConn` event occurs, for every server state and connection. -/
theorem onWsMessage_invalid_format (rng : Rng) (s : ServerState) (ws : Nat) :
    onWsMessage rng s ws none = (s, [ServerEvent.sendError ws "Invalid message format"]) :=
  rfl

/-- C10: the game state built at `start_game` gives every roster member
position 0, money 2,000,000, no properties and a cleared jail flag, in roster
insertion order, and `currentPlayerId` is the first roster key. -/
theorem initializeGameState_start_values (room : Room) (h : room.players ≠ []) :
    (mapKeys room.players).head? = some (initializeGameState room).currentPlayerId
    ∧ (initializeGameState room).players.map GSPlayer.id = mapKeys room.players
    ∧ ∀ gp ∈ (initializeGameState room).players,
        gp.position = 0 ∧ gp.money = 2000000 ∧ gp.properties = [] ∧ gp.inJail = false := by
  refine ⟨?_, ?_, ?_⟩
  · match hm : room.players with
    | [] => exact absurd hm h
    | e :: rest => simp [initializeGameState, mapKeys, hm]
  · show List.map GSPlayer.id (List.map _ (mapKeys room.players)) = mapKeys room.players
    rw [List.map_map]
    exact List.map_id _
  · intro gp hgp
    simp only [initializeGameState, List.mem_map] at hgp
    obtain ⟨id, -, rfl⟩ := hgp
    exact ⟨rfl, rfl, rfl, rfl⟩

/-- C10 witness: the started two-player room yields `"p0"` as first player and
fresh records for both players. -/
theorem initializeGameState_start_values_witness :
    (mapKeys roomStarted.players).head? = some (initializeGameState roomStarted).currentPlayerId
    ∧ (initializeGameState roomStarted).players.map GSPlayer.id = mapKeys roomStarted.players
    ∧ ∀ gp ∈ (initializeGameState roomStarted).players,
        gp.position = 0 ∧ gp.money = 2000000 ∧ gp.properties = [] ∧ gp.inJail = false :=
  initializeGameState_start_values roomStarted (by decide)

/-- C2 (amended): `buyProperty` performs no current-player and no turn-phase
check.  It fails (the source signals failure by returning `false`, with the
state untouched) when the tile already has an owner and when the player's
money is below the price; otherwise it debits exactly the price, appends the
tile id to the player's holdings and records the player as the tile's
owner. -/
theorem buyProperty_spec (gs : GameState) (i playerId tileId : Nat)
    (p : Player) (tinfo : TileInfo) (tile : Tile)
    (hp : gs.players[i]? = some p) (hid : p.id = playerId)
    (hfresh : ∀ q ∈ gs.players.take i, q.id ≠ playerId)
    (hti : getTileInfo gs tileId = some tinfo)
    (ht : gs.tiles[tileId]? = some tile) :
    (tile.owner ≠ none → buyProperty gs playerId tileId = (false, gs))
    ∧ (tile.owner = none → p.money < (tinfo.price : Int) →
        buyProperty gs playerId tileId = (false, gs))
    ∧ (tile.owner = none → (tinfo.price : Int) ≤ p.money →
        buyProperty gs playerId tileId =
          (true, { gs with
            players := gs.players.set i
              { p with money := p.money - (tinfo.price : Int),
                       properties := p.properties ++ [tileId] },
            tiles := gs.tiles.set tileId { tile with owner := some playerId } })) := by
  have hfind : gs.players.find? (fun q => q.id == playerId) = some p :=
    find?_id_of_getElem? hp hid hfresh
  refine ⟨?_, ?_, ?_⟩
  · intro hown
    simp [buyProperty, hfind, hti, ht, hown]
  · intro hown hlt
    simp [buyProperty, hfind, hti, ht, hown, not_le.mpr hlt]
  · intro hown hge
    rw [buyProperty]
    rw [hfind, hti]
    simp only [ht, hown, ne_eq, not_true_eq_false, if_false, if_pos hge,
      updateFirst_eq_set _ hp hid hfresh, updateTile, ht]

/-- C2 witness: the current player (id 0) buys the unowned tile 1 for 50,000:
money drops by the price, the tile id joins the holdings, the tile's owner
becomes 0. -/
theorem buyProperty_spec_witness :
    gs2.players[0]? = some pl0 ∧ gs2.tiles[1]? = some tile1
    ∧ tile1.owner = none ∧ ((50000 : Nat) : Int) ≤ pl0.money
    ∧ buyProperty gs2 0 1 =
        (true, { gs2 with
          players := gs2.players.set 0
            { pl0 with money := pl0.money - ((50000 : Nat) : Int),
                       properties := pl0.properties ++ [1] },
          tiles := gs2.tiles.set 1 { tile1 with owner := some 0 } }) := by
  have h := buyProperty_spec gs2 0 0 1 pl0 taipei tile1 rfl rfl (by decide) rfl rfl
  exact ⟨rfl, rfl, rfl, by decide, h.2.2 rfl (by decide)⟩

/-- C2 counterexample: in `gs2` the current player is id 0 and the phase is
`ROLL` — the session is not awaiting an action on tile 1 — yet player 1's
`buyProperty` is not rejected: it returns `true`, debits player 1 and records
the ownership.  The claim requires an `AuthorizationError` here. -/
theorem buyProperty_by_noncurrent_succeeds :
    (getCurrentPlayer gs2).map Player.id = some 0
    ∧ gs2.turnPhase = "ROLL"
    ∧ (buyProperty gs2 1 1).1 = true
    ∧ ((buyProperty gs2 1 1).2.players[1]?).map Player.money = some 1950000
    ∧ ((buyProperty gs2 1 1).2.tiles[1]?).map Tile.owner = some (some 1) :=
  ⟨rfl, rfl, rfl, rfl, rfl⟩

/-- C3 (the code evaluated at the failing input): tile 1 is owned by player 0
and player 1 lands on it; `handleCityTile` treats the tile as unowned because
`!owner` is true for the number 0, so no rent moves — the state is returned
unchanged, contradicting the claimed automatic transfer of
`floor(2000 * (1 + 0.5 * 0)) = 2000`. -/
theorem handleCityTile_owner_zero_no_rent :
    getTileInfo gsOwned0 1 = some taipei
    ∧ (gsOwned0.tiles[1]?).map Tile.owner = some (some 0)
    ∧ (getCurrentPlayer gsOwned0).map Player.id = some 1
    ∧ calculateRent taipei 0 = 2000
    ∧ handleCityTile gsOwned0 1 taipei = gsOwned0 :=
  ⟨rfl, rfl, rfl, rfl, rfl⟩

/-- C7: `buildOnProperty` fails (returns `false`, state untouched) unless the
player owns the tile, fails when the building level is already at least 5,
fails when money is below `100000 * (level + 1)`; on success it debits exactly
that cost and raises the level by exactly 1, so the level never exceeds 5. -/
theorem buildOnProperty_spec (gs : GameState) (i playerId tileId : Nat)
    (p : Player) (tile : Tile)
    (hp : gs.players[i]? = some p) (hid : p.id = playerId)
    (hfresh : ∀ q ∈ gs.players.take i, q.id ≠ playerId)
    (ht : gs.tiles[tileId]? = some tile) :
    (tile.owner ≠ some playerId → buildOnProperty gs playerId tileId = (false, gs))
    ∧ (tile.owner = some playerId → 5 ≤ tile.building.level →
        buildOnProperty gs playerId tileId = (false, gs))
    ∧ (tile.owner = some playerId → tile.building.level < 5 →
        p.money < ((100000 * (tile.building.level + 1) : Nat) : Int) →
        buildOnProperty gs playerId tileId = (false, gs))
    ∧ (tile.owner = some playerId → tile.building.level < 5 →
        ((100000 * (tile.building.level + 1) : Nat) : Int) ≤ p.money →
        buildOnProperty gs playerId tileId =
          (true, { gs with
            players := gs.players.set i
              { p with money := p.money - ((100000 * (tile.building.level + 1) : Nat) : Int) },
            tiles := gs.tiles.set tileId
              { tile with building := { level := tile.building.level + 1 } } })
        ∧ tile.building.level + 1 ≤ 5) := by
  have hfind : gs.players.find? (fun q => q.id == playerId) = some p :=
    find?_id_of_getElem? hp hid hfresh
  refine ⟨?_, ?_, ?_, ?_⟩
  · intro hown
    simp [buildOnProperty, hfind, ht, hown]
  · intro hown hlvl
    simp [buildOnProperty, hfind, ht, hown, hlvl]
  · intro hown hlvl hlt
    rw [buildOnProperty]
    rw [hfind, ht]
    simp only [if_neg (show ¬(tile.owner ≠ some playerId) from by simp [hown]),
      if_neg (not_le.mpr hlvl), if_neg (not_le.mpr hlt)]
  · intro hown hlvl hge
    refine ⟨?_, by omega⟩
    rw [buildOnProperty]
    rw [hfind, ht]
    simp only [if_neg (show ¬(tile.owner ≠ some playerId) from by simp [hown]),
      if_neg (not_le.mpr hlvl), if_pos hge,
      updateFirst_eq_set _ hp hid hfresh, updateTile, ht]

/-- C7 witness: player 0 owns tile 1 at level 0 and builds for 100,000: the
money drops to 1,900,000 and the level becomes 1 ≤ 5. -/
theorem buildOnProperty_spec_witness :
    gsOwned0.players[0]? = some pl0 ∧ gsOwned0.tiles[1]? = some tile1Owned
    ∧ tile1Owned.owner = some 0 ∧ tile1Owned.building.level < 5
    ∧ (buildOnProperty gsOwned0 0 1 =
        (true, { gsOwned0 with
          players := gsOwned0.players.set 0
            { pl0 with money := pl0.money - ((100000 * (tile1Owned.building.level + 1) : Nat) : Int) },
          tiles := gsOwned0.tiles.set 1
            { tile1Owned with building := { level := tile1Owned.building.level + 1 } } })
        ∧ tile1Owned.building.level + 1 ≤ 5) := by
  have h := buildOnProperty_spec gsOwned0 0 0 1 pl0 tile1Owned rfl rfl (by decide) rfl
  exact ⟨rfl, rfl, rfl, by decide, h.2.2.2 rfl (by decide) (by decide)⟩
